import Mathlib

/-!
Verification of the conflict-resolution policy core of the `lalry` crate
(`src/config.rs`): the `Config` trait with its four default methods, the
`DefaultConfig` baseline implementation, and the conflict-resolution
algorithm that an external table builder executes against a policy.

The `Config` trait is embedded as a record of its four query operations,
with the trait's default method bodies as the record's default field
values; `DefaultConfig` is embedded as the zero-data struct together with
the empty `impl Config for DefaultConfig` block, which overrides nothing.
-/

namespace Lalry

/-- A grammar symbol: a terminal or a nonterminal. -/
inductive Sym (T N : Type) : Type
| term : T → Sym T N
| nonterm : N → Sym T N
deriving DecidableEq, Repr

/-- Modelled from the spec: the `Rhs` type is declared in a part of the
crate outside `src/config.rs`.  Per the spec's data model, an `Rhs<T,N,A>`
is an ordered sequence of symbols forming one production's right-hand
side, tagged with its producing nonterminal and an opaque semantic-action
payload; identity is structural. -/
structure Rhs (T N A : Type) : Type where
  lhs : N
  syms : List (Sym T N)
  act : A
deriving DecidableEq, Repr

/-- Modelled from the spec: the kind of a resolved conflict, `ShiftReduce`
(one shift action vs. one or more reduce candidates) or `ReduceReduce`
(two or more reduce candidates, no shift). -/
inductive ConflictKind : Type
| ShiftReduce : ConflictKind
| ReduceReduce : ConflictKind
deriving DecidableEq, Repr

/-- A parse-table action: shift, or reduce by a given production. -/
inductive Action (T N A : Type) : Type
| shift : Action T N A
| reduce : Rhs T N A → Action T N A
deriving DecidableEq, Repr

/-- Modelled from the spec: `LR1ResolvedConflict` is declared outside
`src/config.rs`.  Per the spec it is an immutable record of one resolved
ambiguity: conflict kind, the state identifier where it occurred, the
lookahead involved, the winner, and the discarded `Rhs` candidates. -/
structure LR1ResolvedConflict (T N A : Type) : Type where
  kind : ConflictKind
  state : Nat
  lookahead : Option T
  winner : Action T N A
  discarded : List (Rhs T N A)
deriving DecidableEq, Repr

/-- The `Config` trait of `src/config.rs`, embedded as a record of its
four query operations.  Each field's default value is the corresponding
default method body from the trait definition:
`resolve_shift_reduse_conflict_in_favor_of_shift` defaults to `false`,
`warn_on_resolved_conflicts` to `None`, `reduce_on` to `true` on every
input, and `priority_of` to `0` on every input. -/
structure Config (T N A : Type) : Type where
  resolve_shift_reduse_conflict_in_favor_of_shift : Bool := false
  warn_on_resolved_conflicts : Option (LR1ResolvedConflict T N A → Unit) := none
  reduce_on : Rhs T N A → Option T → Bool := fun _ _ => true
  priority_of : Rhs T N A → Option T → Int := fun _ _ => 0

/-- The `DefaultConfig` struct: no data beyond a phantom marker, embedded
as a single unit field standing for `PhantomData<(T, N, A)>`. -/
structure DefaultConfig (T N A : Type) : Type where
  _phantom : Unit

/-- The constructor `DefaultConfig::new()`. -/
def DefaultConfig.new (T N A : Type) : DefaultConfig T N A :=
  { _phantom := () }

/-- The `Default` impl for `DefaultConfig`: `default()` calls `new()`. -/
def DefaultConfig.default (T N A : Type) : DefaultConfig T N A :=
  DefaultConfig.new T N A

/-- The `impl<T, N, A> Config<T, N, A> for DefaultConfig<T, N, A> {}`
block: it overrides none of the four methods, so the policy obtained from
any `DefaultConfig` value is the record of the trait's default bodies. -/
def DefaultConfig.toConfig (_dc : DefaultConfig T N A) : Config T N A :=
  { }

/-- Modelled from the spec: one ambiguous table cell as the external
builder presents it to the policy — the state identifier, the lookahead,
whether a shift action is viable, and the list of viable reduce
candidates. -/
structure Cell (T N A : Type) : Type where
  state : Nat
  lookahead : Option T
  hasShift : Bool
  reduces : List (Rhs T N A)
deriving DecidableEq, Repr

/-- Modelled from the spec: the error taxonomy of the table builder —
`UnresolvedShiftReduceConflict`, `UnresolvedReduceReduceConflict`
(naming all tied productions), and `DeadTableCell`. -/
inductive CellError (T N A : Type) : Type
| UnresolvedShiftReduceConflict : Nat → Option T → CellError T N A
| UnresolvedReduceReduceConflict : Nat → Option T → List (Rhs T N A) → CellError T N A
| DeadTableCell : Nat → Option T → CellError T N A
deriving DecidableEq, Repr

/-- The reduce candidates of a cell surviving the `reduce_on` filter
(step 2 of the spec's resolution algorithm). -/
def surviving (cfg : Config T N A) (c : Cell T N A) : List (Rhs T N A) :=
  c.reduces.filter (fun r => cfg.reduce_on r c.lookahead)

/-- The maximal value of a priority function among a list of reduce
candidates at a given lookahead (used in step 5 of the resolution
algorithm with the policy's `priority_of`). -/
def maxPriority (prio : Rhs T N A → Option T → Int) (la : Option T) :
    List (Rhs T N A) → Int
| [] => 0
| [r] => prio r la
| r :: rest => max (prio r la) (maxPriority prio la rest)

/-- The diagnostic reports a resolution delivers: the `ResolvedConflict`
is constructed and delivered only when a reporting hook is configured. -/
def reportsFor (cfg : Config T N A) (rc : LR1ResolvedConflict T N A) :
    List (LR1ResolvedConflict T N A) :=
  match cfg.warn_on_resolved_conflicts with
  | none => []
  | some _ => [rc]

/-- The `ShiftReduce` record built when a shift/reduce conflict is resolved
in favor of shift: the shift wins and the surviving reduce candidates are
the discarded set. -/
def shiftReduceReport (c : Cell T N A) (discarded : List (Rhs T N A)) :
    LR1ResolvedConflict T N A :=
  { kind := ConflictKind.ShiftReduce, state := c.state,
    lookahead := c.lookahead, winner := Action.shift, discarded := discarded }

/-- The `ReduceReduce` record built when a reduce/reduce conflict is
resolved by priority: the unique highest-priority candidate wins and the
lower-priority candidates are the discarded set. -/
def reduceReduceReport (c : Cell T N A) (w : Rhs T N A)
    (discarded : List (Rhs T N A)) : LR1ResolvedConflict T N A :=
  { kind := ConflictKind.ReduceReduce, state := c.state,
    lookahead := c.lookahead, winner := Action.reduce w,
    discarded := discarded }

/-- Modelled from the spec: the resolution algorithm the external builder
executes for one ambiguous (state, lookahead) cell, steps 2-6 of §4.1:
filter reduce candidates through `reduce_on`; a lone surviving action is
applied silently; a shift alongside surviving reduces is applied (with a
`ShiftReduce` report) iff `resolve_shift_reduse_conflict_in_favor_of_shift`
holds, else the cell errors; two or more surviving reduces are resolved by
a unique strict maximum of `priority_of` (with a `ReduceReduce` report),
a tie at the maximum errors naming all tied productions; an empty cell is
a dead-cell error. -/
def resolveCell (cfg : Config T N A) (c : Cell T N A) :
    Except (CellError T N A) (Action T N A × List (LR1ResolvedConflict T N A)) :=
  match surviving cfg c with
  | [] =>
    if c.hasShift then Except.ok (Action.shift, [])
    else Except.error (CellError.DeadTableCell c.state c.lookahead)
  | [r] =>
    if c.hasShift then
      if cfg.resolve_shift_reduse_conflict_in_favor_of_shift then
        Except.ok (Action.shift, reportsFor cfg (shiftReduceReport c [r]))
      else
        Except.error (CellError.UnresolvedShiftReduceConflict c.state c.lookahead)
    else Except.ok (Action.reduce r, [])
  | rs =>
    if c.hasShift then
      if cfg.resolve_shift_reduse_conflict_in_favor_of_shift then
        Except.ok (Action.shift, reportsFor cfg (shiftReduceReport c rs))
      else
        Except.error (CellError.UnresolvedShiftReduceConflict c.state c.lookahead)
    else
      match rs.filter
          (fun r => cfg.priority_of r c.lookahead
            = maxPriority cfg.priority_of c.lookahead rs) with
      | [w] =>
        Except.ok (Action.reduce w,
          reportsFor cfg
            (reduceReduceReport c w
              (rs.filter
                (fun r => cfg.priority_of r c.lookahead
                  ≠ maxPriority cfg.priority_of c.lookahead rs))))
      | tied =>
        Except.error
          (CellError.UnresolvedReduceReduceConflict c.state c.lookahead tied)

/-- Modelled from the spec: whole-table generation — the builder visits
every ambiguous cell in order, applies the resolution algorithm, collects
the chosen actions keyed by (state, lookahead) and the delivered reports,
and fails the whole pass as soon as one cell errors. -/
def generateTable (cfg : Config T N A) :
    List (Cell T N A) →
    Except (CellError T N A)
      (List ((Nat × Option T) × Action T N A) × List (LR1ResolvedConflict T N A))
| [] => Except.ok ([], [])
| c :: rest =>
  match resolveCell cfg c with
  | Except.error e => Except.error e
  | Except.ok (a, reps) =>
    match generateTable cfg rest with
    | Except.error e => Except.error e
    | Except.ok (tbl, reps2) =>
      Except.ok (((c.state, c.lookahead), a) :: tbl, reps ++ reps2)

/-- The sequence of reports delivered to the reporting hook by a
(cell- or table-level) resolution result; a failed pass delivers none. -/
def deliveredReports {E R : Type}
    (e : Except E (R × List (LR1ResolvedConflict T N A))) :
    List (LR1ResolvedConflict T N A) :=
  match e with
  | Except.error _ => []
  | Except.ok (_, reps) => reps

/-- A policy derived from `base` by vetoing the reduction of production
`rv` exactly at lookahead `vla`: `reduce_on` answers `false` on `(rv, vla)`
and defers to `base` everywhere else; the other three operations are
unchanged.  This is the dangling-else-style customization the spec
describes for `reduce_on`. -/
def vetoConfig [DecidableEq T] [DecidableEq N] [DecidableEq A]
    (base : Config T N A) (rv : Rhs T N A) (vla : Option T) : Config T N A :=
  { base with
    reduce_on := fun r l => if r = rv ∧ l = vla then false else base.reduce_on r l }

/-- An implementor of the `Config` trait, over an arbitrary carrier type
`C`, that overrides none of the four methods: its policy record is built
entirely from the trait's default method bodies. -/
def unoverriddenImpl (C T N A : Type) : C → Config T N A :=
  fun _ => { }

/-- A sample production used by the concrete witnesses. -/
def rhsA : Rhs Nat Nat Unit :=
  { lhs := 5, syms := [Sym.term 1], act := () }

/-- A second sample production used by the concrete witnesses. -/
def rhsB : Rhs Nat Nat Unit :=
  { lhs := 3, syms := [Sym.nonterm 2], act := () }

/-- A cell holding a shift/reduce conflict: one shift and one reduce
candidate at state 3, lookahead terminal 7. -/
def cellSR : Cell Nat Nat Unit :=
  { state := 3, lookahead := some 7, hasShift := true, reduces := [rhsA] }

/-- A configuration that resolves shift/reduce conflicts in favor of
shift and installs a reporting hook. -/
def cfgShift : Config Nat Nat Unit :=
  { resolve_shift_reduse_conflict_in_favor_of_shift := true,
    warn_on_resolved_conflicts := some (fun _ => ()) }

/-- A cell holding a reduce/reduce conflict: no shift and two reduce
candidates at state 4, lookahead terminal 9. -/
def cellRR : Cell Nat Nat Unit :=
  { state := 4, lookahead := some 9, hasShift := false, reduces := [rhsA, rhsB] }

/-- A configuration whose `priority_of` ranks productions by the numeric
value of their left-hand side, so `rhsA` (5) outranks `rhsB` (3). -/
def cfgPrio : Config Nat Nat Unit :=
  { priority_of := fun r _ => (r.lhs : Int) }

/-- A cell at a lookahead (terminal 2) other than the vetoed one, holding
the vetoed production as its only reduce candidate. -/
def cellOther : Cell Nat Nat Unit :=
  { state := 6, lookahead := some 2, hasShift := false, reduces := [rhsA] }

/-- A cell at the vetoed lookahead (terminal 1) holding the vetoed
production among its reduce candidates. -/
def cellVetoed : Cell Nat Nat Unit :=
  { state := 6, lookahead := some 1, hasShift := true, reduces := [rhsA] }

/-- A configuration that resolves shift/reduce conflicts in favor of
shift but installs no reporting hook. -/
def cfgShiftNoHook : Config Nat Nat Unit :=
  { resolve_shift_reduse_conflict_in_favor_of_shift := true }

/-- The all-defaults configuration at concrete type parameters. -/
def cfgDefault : Config Nat Nat Unit :=
  { }

/-- Every candidate's priority is bounded by the maximal priority of its
list. -/
theorem priority_le_maxPriority (prio : Rhs T N A → Option T → Int)
    (la : Option T) (rs : List (Rhs T N A)) (r : Rhs T N A) (hr : r ∈ rs) :
    prio r la ≤ maxPriority prio la rs := by
  induction rs with
  | nil => simp at hr
  | cons a l ih =>
    rcases List.mem_cons.mp hr with h | h
    · subst h
      cases l with
      | nil => simp [maxPriority]
      | cons b l2 => simp only [maxPriority]; exact le_max_left _ _
    · cases l with
      | nil => simp at h
      | cons b l2 =>
        simp only [maxPriority]
        exact le_trans (ih h) (le_max_right _ _)

/-- C1: for every `Rhs` value and every lookahead, the default policy's
`reduce_on` returns `true` and its `priority_of` returns `0`;
`DefaultConfig` overrides neither method, so it exhibits exactly this
behaviour on all inputs. -/
theorem default_reduce_on_true_and_priority_zero (T N A : Type)
    (dc : DefaultConfig T N A) (rhs : Rhs T N A) (la : Option T) :
    dc.toConfig.reduce_on rhs la = true ∧ dc.toConfig.priority_of rhs la = 0 :=
  ⟨rfl, rfl⟩

/-- C5: the favor-shift switch defaults to `false` —
`DefaultConfig`'s `resolve_shift_reduse_conflict_in_favor_of_shift`
returns `false` for every instance, so a shift/reduce conflict that
survives filtering is a hard error under the baseline policy. -/
theorem default_favor_shift_false_hard_error (dc : DefaultConfig T N A)
    (c : Cell T N A) (hs : c.hasShift = true)
    (hne : surviving dc.toConfig c ≠ []) :
    dc.toConfig.resolve_shift_reduse_conflict_in_favor_of_shift = false ∧
    resolveCell dc.toConfig c =
      Except.error (CellError.UnresolvedShiftReduceConflict c.state c.lookahead) := by
  refine ⟨rfl, ?_⟩
  unfold resolveCell
  rcases hsur : surviving dc.toConfig c with _ | ⟨r, _ | ⟨r2, rest⟩⟩
  · exact absurd hsur hne
  · simp [hs, DefaultConfig.toConfig]
  · simp [hs, DefaultConfig.toConfig]

/-- Witness for C5 at a concrete conflicted cell. -/
theorem default_favor_shift_false_hard_error_witness :
    cellSR.hasShift = true ∧
    surviving (DefaultConfig.new Nat Nat Unit).toConfig cellSR ≠ [] ∧
    resolveCell (DefaultConfig.new Nat Nat Unit).toConfig cellSR =
      Except.error (CellError.UnresolvedShiftReduceConflict 3 (some 7)) :=
  ⟨rfl, by decide,
    (default_favor_shift_false_hard_error (DefaultConfig.new Nat Nat Unit)
      cellSR rfl (by decide)).2⟩

/-- C7: `priority_of` is total — every `Rhs`/lookahead pair yields an
integer priority on any policy, and the default (non-overridden) rule
yields `0`. -/
theorem priority_of_total_default_zero (cfg : Config T N A)
    (rhs : Rhs T N A) (la : Option T) :
    (∃ p : Int, cfg.priority_of rhs la = p) ∧
    (DefaultConfig.new T N A).toConfig.priority_of rhs la = 0 :=
  ⟨⟨cfg.priority_of rhs la, rfl⟩, rfl⟩

/-- C9: an implementor of the `Config` trait over any carrier type that
overrides none of the four methods agrees with `DefaultConfig` on every
input of every method — the baseline behaviour lives in the trait's
default bodies and `DefaultConfig`'s impl block adds nothing. -/
theorem unoverridden_impl_extensionally_default (C T N A : Type) (x : C)
    (dc : DefaultConfig T N A) (rhs : Rhs T N A) (la : Option T) :
    (unoverriddenImpl C T N A x).resolve_shift_reduse_conflict_in_favor_of_shift
        = dc.toConfig.resolve_shift_reduse_conflict_in_favor_of_shift ∧
    (unoverriddenImpl C T N A x).warn_on_resolved_conflicts
        = dc.toConfig.warn_on_resolved_conflicts ∧
    (unoverriddenImpl C T N A x).reduce_on rhs la = dc.toConfig.reduce_on rhs la ∧
    (unoverriddenImpl C T N A x).priority_of rhs la = dc.toConfig.priority_of rhs la :=
  ⟨rfl, rfl, rfl, rfl⟩

/-- C10: `DefaultConfig::default()` and `DefaultConfig::new()` construct
equivalent values: `default()` literally is `new()`, any two
`DefaultConfig` values are equal (no observable state beyond the phantom
marker), and the policies of any two values agree on all four query
operations for every input. -/
theorem default_config_default_eq_new (T N A : Type)
    (d1 d2 : DefaultConfig T N A) (rhs : Rhs T N A) (la : Option T) :
    DefaultConfig.default T N A = DefaultConfig.new T N A ∧
    d1 = d2 ∧
    d1.toConfig.resolve_shift_reduse_conflict_in_favor_of_shift
        = d2.toConfig.resolve_shift_reduse_conflict_in_favor_of_shift ∧
    d1.toConfig.warn_on_resolved_conflicts = d2.toConfig.warn_on_resolved_conflicts ∧
    d1.toConfig.reduce_on rhs la = d2.toConfig.reduce_on rhs la ∧
    d1.toConfig.priority_of rhs la = d2.toConfig.priority_of rhs la := by
  refine ⟨rfl, ?_, rfl, rfl, rfl, rfl⟩
  rcases d1 with ⟨⟨⟩⟩
  rcases d2 with ⟨⟨⟩⟩
  rfl

/-- A policy with no reporting hook has an empty report component in any
successful cell resolution. -/
theorem resolveCell_ok_reports_nil (cfg : Config T N A) (c : Cell T N A)
    (hw : cfg.warn_on_resolved_conflicts = none) (a : Action T N A)
    (reps : List (LR1ResolvedConflict T N A))
    (h : resolveCell cfg c = Except.ok (a, reps)) : reps = [] := by
  unfold resolveCell at h
  repeat' split at h <;> try simp_all [reportsFor]

/-- A policy with no reporting hook delivers no reports from the
resolution of any cell. -/
theorem resolveCell_silent (cfg : Config T N A) (c : Cell T N A)
    (hw : cfg.warn_on_resolved_conflicts = none) :
    deliveredReports (resolveCell cfg c) = [] := by
  rcases h : resolveCell cfg c with e | ⟨a, reps⟩
  · rfl
  · simpa [deliveredReports] using resolveCell_ok_reports_nil cfg c hw a reps h

/-- A policy with no reporting hook delivers no reports from a whole
table-generation pass. -/
theorem generateTable_silent (cfg : Config T N A)
    (hw : cfg.warn_on_resolved_conflicts = none) (cells : List (Cell T N A)) :
    deliveredReports (generateTable cfg cells) = [] := by
  induction cells with
  | nil => rfl
  | cons c rest ih =>
    have h1 := resolveCell_silent cfg c hw
    unfold generateTable
    rcases hres : resolveCell cfg c with e | ⟨a, reps⟩
    · simp [deliveredReports]
    · rw [hres] at h1
      have hreps : reps = [] := by simpa [deliveredReports] using h1
      rcases hrest : generateTable cfg rest with e2 | ⟨tbl, reps2⟩
      · simp [deliveredReports]
      · rw [hrest] at ih
        have hreps2 : reps2 = [] := by simpa [deliveredReports] using ih
        simp [deliveredReports, hreps, hreps2]

/-- C4: the four policy operations are pure functions of their arguments
(in this embedding, by construction), so two table-construction runs over
the same cells with the same `DefaultConfig` instance are the same run:
they produce identical results, and the report sequence of such a run is
empty since `DefaultConfig` configures no hook. -/
theorem default_config_runs_identical_and_silent (dc : DefaultConfig T N A)
    (cells : List (Cell T N A)) (rhs : Rhs T N A) (la : Option T) :
    dc.toConfig.reduce_on rhs la = dc.toConfig.reduce_on rhs la ∧
    dc.toConfig.priority_of rhs la = dc.toConfig.priority_of rhs la ∧
    dc.toConfig.resolve_shift_reduse_conflict_in_favor_of_shift
        = dc.toConfig.resolve_shift_reduse_conflict_in_favor_of_shift ∧
    dc.toConfig.warn_on_resolved_conflicts = dc.toConfig.warn_on_resolved_conflicts ∧
    generateTable dc.toConfig cells = generateTable dc.toConfig cells ∧
    deliveredReports (generateTable dc.toConfig cells) = [] :=
  ⟨rfl, rfl, rfl, rfl, rfl, generateTable_silent dc.toConfig rfl cells⟩

/-- C2: at a cell whose shift/reduce conflict survives `reduce_on`
filtering, generation fails with an unresolved-shift-reduce error naming
the state and lookahead when the favor-shift switch is off; when it is
on, generation succeeds with action shift, and the delivered reports are
exactly one `ShiftReduce` record naming the state and lookahead when a
hook is configured, and none otherwise. -/
theorem shift_reduce_conflict_resolution (cfg : Config T N A) (c : Cell T N A)
    (hs : c.hasShift = true) (hne : surviving cfg c ≠ []) :
    (cfg.resolve_shift_reduse_conflict_in_favor_of_shift = false →
      generateTable cfg [c] =
        Except.error (CellError.UnresolvedShiftReduceConflict c.state c.lookahead)) ∧
    (cfg.resolve_shift_reduse_conflict_in_favor_of_shift = true →
      generateTable cfg [c] =
        Except.ok ([((c.state, c.lookahead), Action.shift)],
          reportsFor cfg (shiftReduceReport c (surviving cfg c)))) ∧
    (cfg.warn_on_resolved_conflicts = none →
      reportsFor cfg (shiftReduceReport c (surviving cfg c)) = []) ∧
    (cfg.warn_on_resolved_conflicts.isSome = true →
      reportsFor cfg (shiftReduceReport c (surviving cfg c))
          = [shiftReduceReport c (surviving cfg c)] ∧
      (shiftReduceReport c (surviving cfg c)).kind = ConflictKind.ShiftReduce ∧
      (shiftReduceReport c (surviving cfg c)).state = c.state ∧
      (shiftReduceReport c (surviving cfg c)).lookahead = c.lookahead) := by
  have hres : resolveCell cfg c =
      if cfg.resolve_shift_reduse_conflict_in_favor_of_shift then
        Except.ok (Action.shift, reportsFor cfg (shiftReduceReport c (surviving cfg c)))
      else Except.error (CellError.UnresolvedShiftReduceConflict c.state c.lookahead) := by
    unfold resolveCell
    rcases hsur : surviving cfg c with _ | ⟨r, _ | ⟨r2, rest⟩⟩
    · exact absurd hsur hne
    · simp [hs]
    · simp [hs]
  refine ⟨?_, ?_, ?_, ?_⟩
  · intro hfav
    simp [generateTable, hres, hfav]
  · intro hfav
    simp [generateTable, hres, hfav]
  · intro hw
    simp [reportsFor, hw]
  · intro hw
    rcases hO : cfg.warn_on_resolved_conflicts with _ | f
    · rw [hO] at hw
      simp at hw
    · exact ⟨by simp [reportsFor, hO], rfl, rfl, rfl⟩

/-- Witness for C2: with favor-shift on and a hook configured, a concrete
conflicted cell resolves to shift with exactly one `ShiftReduce` report;
with favor-shift on and no hook, the same cell resolves to shift with no
reports. -/
theorem shift_reduce_conflict_resolution_witness :
    cellSR.hasShift = true ∧
    surviving cfgShift cellSR ≠ [] ∧
    generateTable cfgShift [cellSR] =
      Except.ok ([((cellSR.state, cellSR.lookahead), Action.shift)],
        reportsFor cfgShift (shiftReduceReport cellSR (surviving cfgShift cellSR))) ∧
    generateTable cfgShift [cellSR] =
      Except.ok ([((3, some 7), Action.shift)], [shiftReduceReport cellSR [rhsA]]) ∧
    generateTable cfgShiftNoHook [cellSR] =
      Except.ok ([((3, some 7), Action.shift)], []) :=
  ⟨rfl, by decide,
    (shift_reduce_conflict_resolution cfgShift cellSR rfl (by decide)).2.1 rfl,
    by rfl, by rfl⟩

/-- The outcome (chosen action or error) of a cell resolution does not
depend on the reporting hook; only the report component does. -/
theorem resolveCell_map_fst_hook_irrelevant (f : Bool)
    (w1 w2 : Option (LR1ResolvedConflict T N A → Unit))
    (ro : Rhs T N A → Option T → Bool) (p : Rhs T N A → Option T → Int)
    (c : Cell T N A) :
    (resolveCell ⟨f, w1, ro, p⟩ c).map Prod.fst
      = (resolveCell ⟨f, w2, ro, p⟩ c).map Prod.fst := by
  unfold resolveCell
  rcases hsur : surviving ⟨f, w1, ro, p⟩ c with _ | ⟨r, _ | ⟨r2, rest⟩⟩ <;>
    rw [show surviving ⟨f, w2, ro, p⟩ c = _ from hsur] <;>
    rcases hhs : c.hasShift <;> cases f <;>
    try simp [hhs, Except.map]
  all_goals
    rcases hfl : List.filter
        (fun x => decide (p x c.lookahead
          = maxPriority p c.lookahead (r :: r2 :: rest)))
        (r :: r2 :: rest) with _ | ⟨a, _ | ⟨b, l⟩⟩ <;>
      simp [Except.map]

/-- C6: the default reporting hook is absent —
`DefaultConfig`'s `warn_on_resolved_conflicts` returns `None` — and the
absence of a hook only skips diagnostics: removing the hook from any
policy leaves the outcome of every cell resolution unchanged, it only
empties the delivered report list. -/
theorem no_hook_skips_diagnostics_only (dc : DefaultConfig T N A)
    (cfg : Config T N A) (c : Cell T N A) :
    dc.toConfig.warn_on_resolved_conflicts = none ∧
    (resolveCell { cfg with warn_on_resolved_conflicts := none } c).map Prod.fst
      = (resolveCell cfg c).map Prod.fst ∧
    deliveredReports (resolveCell { cfg with warn_on_resolved_conflicts := none } c)
      = [] := by
  refine ⟨rfl, ?_, resolveCell_silent _ c rfl⟩
  obtain ⟨f, w, ro, p⟩ := cfg
  exact resolveCell_map_fst_hook_irrelevant f none w ro p c

/-- Two policies differing only in `reduce_on`, with the same surviving
candidates at a cell, resolve that cell identically. -/
theorem resolveCell_reduce_on_irrelevant (f : Bool)
    (w : Option (LR1ResolvedConflict T N A → Unit))
    (ro1 ro2 : Rhs T N A → Option T → Bool) (p : Rhs T N A → Option T → Int)
    (c : Cell T N A)
    (hsur : surviving ⟨f, w, ro1, p⟩ c = surviving ⟨f, w, ro2, p⟩ c) :
    resolveCell ⟨f, w, ro1, p⟩ c = resolveCell ⟨f, w, ro2, p⟩ c := by
  unfold resolveCell
  rw [hsur]
  rfl

/-- C8: the `reduce_on` veto is scoped per lookahead — vetoing production
`rv` at lookahead `vla` removes `rv` from the surviving candidates of any
cell at lookahead `vla`, while every cell at any other lookahead is
resolved exactly as under the un-vetoed policy. -/
theorem reduce_on_veto_per_lookahead [DecidableEq T] [DecidableEq N]
    [DecidableEq A] (cfg : Config T N A) (rv : Rhs T N A) (vla : Option T)
    (c cv : Cell T N A) (hla : c.lookahead ≠ vla) (hlav : cv.lookahead = vla) :
    rv ∉ surviving (vetoConfig cfg rv vla) cv ∧
    resolveCell (vetoConfig cfg rv vla) c = resolveCell cfg c := by
  constructor
  · intro hmem
    have hpred := (List.mem_filter.mp hmem).2
    simp [vetoConfig, hlav] at hpred
  · have hsur : surviving (vetoConfig cfg rv vla) c = surviving cfg c := by
      unfold surviving vetoConfig
      refine List.filter_congr ?_
      intro r _
      simp [hla]
    obtain ⟨f, w, ro, p⟩ := cfg
    exact resolveCell_reduce_on_irrelevant f w _ ro p c hsur

/-- Witness for C8: vetoing `rhsA` at lookahead terminal 1 removes it
from the surviving candidates of a cell at lookahead 1, while a cell at
lookahead 2 resolves exactly as under the default policy, reducing by
`rhsA`. -/
theorem reduce_on_veto_per_lookahead_witness :
    cellOther.lookahead ≠ some 1 ∧
    cellVetoed.lookahead = some 1 ∧
    (rhsA ∉ surviving (vetoConfig cfgDefault rhsA (some 1)) cellVetoed ∧
      resolveCell (vetoConfig cfgDefault rhsA (some 1)) cellOther
        = resolveCell cfgDefault cellOther) ∧
    resolveCell cfgDefault cellOther = Except.ok (Action.reduce rhsA, []) :=
  ⟨by decide, rfl,
    reduce_on_veto_per_lookahead cfgDefault rhsA (some 1) cellOther cellVetoed
      (by decide) rfl,
    by rfl⟩

/-- C3: when only reduce candidates remain and there are two or more,
the candidate at which `priority_of` attains its unique maximum is
applied — its priority is strictly above every other surviving
candidate's — and when the maximum is tied among two or more candidates
the cell errors with an unresolved-reduce-reduce error naming all tied
productions, the state and the lookahead; the tie is never broken by
arbitrary order. -/
theorem reduce_reduce_priority_resolution (cfg : Config T N A)
    (c : Cell T N A) (w r : Rhs T N A) (hs : c.hasShift = false)
    (h2 : 2 ≤ (surviving cfg c).length) :
    ((surviving cfg c).filter
        (fun x => cfg.priority_of x c.lookahead
          = maxPriority cfg.priority_of c.lookahead (surviving cfg c)) = [w] →
      resolveCell cfg c =
        Except.ok (Action.reduce w,
          reportsFor cfg
            (reduceReduceReport c w
              ((surviving cfg c).filter
                (fun x => cfg.priority_of x c.lookahead
                  ≠ maxPriority cfg.priority_of c.lookahead (surviving cfg c)))))) ∧
    ((surviving cfg c).filter
        (fun x => cfg.priority_of x c.lookahead
          = maxPriority cfg.priority_of c.lookahead (surviving cfg c)) = [w] →
      r ∈ surviving cfg c → r ≠ w →
      cfg.priority_of r c.lookahead < cfg.priority_of w c.lookahead) ∧
    (2 ≤ ((surviving cfg c).filter
        (fun x => cfg.priority_of x c.lookahead
          = maxPriority cfg.priority_of c.lookahead (surviving cfg c))).length →
      resolveCell cfg c =
        Except.error (CellError.UnresolvedReduceReduceConflict c.state c.lookahead
          ((surviving cfg c).filter
            (fun x => cfg.priority_of x c.lookahead
              = maxPriority cfg.priority_of c.lookahead (surviving cfg c))))) := by
  refine ⟨?_, ?_, ?_⟩
  · intro hw
    unfold resolveCell
    rcases hsur : surviving cfg c with _ | ⟨a, _ | ⟨b, l⟩⟩
    · rw [hsur] at h2
      simp at h2
    · rw [hsur] at h2
      simp at h2
    · rw [hsur] at hw
      simp [hs, hw]
  · intro hw hrm hrw
    have hwm : w ∈ (surviving cfg c).filter
        (fun x => cfg.priority_of x c.lookahead
          = maxPriority cfg.priority_of c.lookahead (surviving cfg c)) := by
      rw [hw]
      exact List.mem_singleton.mpr rfl
    have hwp : cfg.priority_of w c.lookahead
        = maxPriority cfg.priority_of c.lookahead (surviving cfg c) :=
      of_decide_eq_true (List.mem_filter.mp hwm).2
    have hrle := priority_le_maxPriority cfg.priority_of c.lookahead
      (surviving cfg c) r hrm
    have hrne : cfg.priority_of r c.lookahead
        ≠ maxPriority cfg.priority_of c.lookahead (surviving cfg c) := by
      intro heq
      have hrf : r ∈ (surviving cfg c).filter
          (fun x => cfg.priority_of x c.lookahead
            = maxPriority cfg.priority_of c.lookahead (surviving cfg c)) :=
        List.mem_filter.mpr ⟨hrm, decide_eq_true heq⟩
      rw [hw] at hrf
      exact hrw (List.mem_singleton.mp hrf)
    rw [hwp]
    exact lt_of_le_of_ne hrle hrne
  · intro htie
    unfold resolveCell
    rcases hsur : surviving cfg c with _ | ⟨a, _ | ⟨b, l⟩⟩
    · rw [hsur] at h2
      simp at h2
    · rw [hsur] at h2
      simp at h2
    · rw [hsur] at htie
      rcases hfl : (a :: b :: l).filter
          (fun x => cfg.priority_of x c.lookahead
            = maxPriority cfg.priority_of c.lookahead (a :: b :: l)) with
        _ | ⟨t1, _ | ⟨t2, tl⟩⟩
      · rw [hfl] at htie
        simp at htie
      · rw [hfl] at htie
        simp at htie
      · simp [hs, hfl]

/-- Witness for C3: with priorities read off the productions' left-hand
sides, the two-candidate cell resolves to the higher-priority production
`rhsA` (priority 5 beats 3) with no reports since no hook is configured;
under the default policy both candidates tie at priority 0 and the same
cell fails naming both productions, the state and the lookahead. -/
theorem reduce_reduce_priority_resolution_witness :
    cellRR.hasShift = false ∧
    2 ≤ (surviving cfgPrio cellRR).length ∧
    resolveCell cfgPrio cellRR = Except.ok (Action.reduce rhsA, []) ∧
    cfgPrio.priority_of rhsB cellRR.lookahead
      < cfgPrio.priority_of rhsA cellRR.lookahead ∧
    resolveCell cfgDefault cellRR =
      Except.error
        (CellError.UnresolvedReduceReduceConflict 4 (some 9) [rhsA, rhsB]) :=
  ⟨rfl, by decide,
    (reduce_reduce_priority_resolution cfgPrio cellRR rhsA rhsB rfl
      (by decide)).1 (by decide),
    (reduce_reduce_priority_resolution cfgPrio cellRR rhsA rhsB rfl
      (by decide)).2.1 (by decide) (by decide) (by decide),
    (reduce_reduce_priority_resolution cfgDefault cellRR rhsA rhsB rfl
      (by decide)).2.2 (by decide)⟩

end Lalry
